import Mathlib

/-!
Shallow embedding of the Meraki RMA portal (src/config/meraki.js,
src/routes/api.js, src/public/js/app.js).

JavaScript strings are modelled as Lean `String`; `trim`, `toUpperCase`
and `includes` are re-implemented below over character lists following
ECMAScript semantics (case mapping is modelled for ASCII, which covers
every serial / message the code manipulates).  JSON `undefined`/`null`
is modelled as `Option`; numbers are modelled as `Int` (so that the
JavaScript falsiness of `0` is kept); a JSON response body of a
successful request is modelled as present and truthy.  Remote calls are
modelled by environments that record, per endpoint, the response the
platform would give, and every function additionally returns the list
of calls it issued, in order.
-/

/-- ECMAScript WhiteSpace / LineTerminator, as removed by `String.prototype.trim`. -/
def jsWhitespace (c : Char) : Bool :=
  c = ' ' || c = '\t' || c = '\n' || c = '\r' ||
  c = '\x0b' || c = '\x0c' || c = '\u00A0' || c = '\u1680' ||
  (0x2000 ≤ c.toNat && c.toNat ≤ 0x200A) ||
  c = '\u2028' || c = '\u2029' || c = '\u202F' || c = '\u205F' ||
  c = '\u3000' || c = '\uFEFF'

/-- Drop whitespace from both ends of a character list (JS `trim`). -/
def trimList (l : List Char) : List Char :=
  ((l.dropWhile jsWhitespace).reverse.dropWhile jsWhitespace).reverse

/-- JS `String.prototype.trim`. -/
def jsTrim (s : String) : String := ⟨trimList s.data⟩

/-- ASCII case mapping of one character (`a`-`z` to `A`-`Z`). -/
def jsUpperChar (c : Char) : Char :=
  if 97 ≤ c.toNat && c.toNat ≤ 122 then Char.ofNat (c.toNat - 32) else c

/-- JS `String.prototype.toUpperCase` (ASCII case mapping). -/
def jsUpper (s : String) : String := ⟨s.data.map jsUpperChar⟩

/-- Substring test on character lists. -/
def containsSubList (hay sub : List Char) : Bool :=
  sub.isPrefixOf hay ||
    match hay with
    | [] => false
    | _ :: t => containsSubList t sub

/-- JS `String.prototype.includes`. -/
def jsIncludes (hay sub : String) : Bool := containsSubList hay.data sub.data

/-- A character allowed by the serial regex character class `[A-Z0-9]` with the
`i` flag: an ASCII letter or digit. -/
def isSerialChar (c : Char) : Bool :=
  (65 ≤ c.toNat && c.toNat ≤ 90) || (97 ≤ c.toNat && c.toNat ≤ 122) ||
    (48 ≤ c.toNat && c.toNat ≤ 57)

/-- The serial regex `^[A-Z0-9]\x7b4\x7d-[A-Z0-9]\x7b4\x7d-[A-Z0-9]\x7b4\x7d$`
(routes/api.js line 38 and public/js/app.js line 85). -/
def serialFormatOk (s : String) : Bool :=
  match s.data with
  | [a, b, c, d, h₁, e, f, g, h, h₂, i, j, k, l] =>
    h₁ = '-' && h₂ = '-' &&
      [a, b, c, d, e, f, g, h, i, j, k, l].all isSerialChar
  | _ => false

/-- `validateSerialFormat` (public/js/app.js lines 84-87): the pattern is
tested against `serial.trim().toUpperCase()`. -/
def validateSerialFormat (serial : String) : Bool :=
  serialFormatOk (jsUpper (jsTrim serial))

/-- JS truthiness of an optional string (absent, `null` and `""` are falsy). -/
def jsTruthyStr : Option String → Bool
  | some s => s ≠ ""
  | none => false

/-- JS truthiness of an optional number (absent, `null` and `0` are falsy). -/
def jsTruthyInt : Option Int → Bool
  | some n => n ≠ 0
  | none => false

/-- JS `x || dflt` for an optional string `x` (`undefined` and `""` fall back). -/
def jsOrStr (x : Option String) (dflt : String) : String :=
  match x with
  | some s => if s = "" then dflt else s
  | none => dflt

/-- JS `x || null` for an optional string `x`. -/
def jsOrNull (x : Option String) : Option String :=
  match x with
  | some s => if s = "" then none else some s
  | none => none

/-- An HTTP error response: status code and the optional platform error list
found at `error.response.data.errors`. -/
structure RespInfo where
  status : Nat
  errors : Option (List String)
deriving DecidableEq

/-- A thrown JS error: its `.message` and, for axios errors, its `.response`. -/
structure MErr where
  message : String
  response : Option RespInfo
deriving DecidableEq

def notFoundMsg : String :=
  "Resource not found. Please check the serial numbers and organization access."

def forbiddenMsg : String :=
  "Access forbidden. Please check API key permissions for this organization."

def rateLimitMsg : String :=
  "Rate limit exceeded. Please try again in a moment."

/-- `MerakiAPI.formatErrorMessage` (config/meraki.js lines 468-486).  The
result is an optional string because `errors[0]` on an empty platform error
list is JS `undefined`. -/
def formatErrorMessage (e : MErr) : Option String :=
  match e.response with
  | some r =>
    match r.errors with
    | some errs => errs.head?
    | none =>
      if r.status = 404 then some notFoundMsg
      else if r.status = 403 then some forbiddenMsg
      else if r.status = 429 then some rateLimitMsg
      else some e.message
  | none => some e.message

/-! ## Data model of the remote platform (validation side) -/

/-- Response of `GET /organizations/\x7borgId\x7d`. -/
structure OrgData where
  name : String
deriving DecidableEq

/-- One network of `GET /organizations/\x7borgId\x7d/networks`. -/
structure NetworkInfo where
  id : String
  name : String
deriving DecidableEq

/-- The failed device record returned by
`GET /networks/\x7bnetworkId\x7d/devices/\x7bserial\x7d`. -/
structure Device where
  serial : String
  name : Option String := none
  tags : Option (List String) := none
  address : Option String := none
  lat : Option Int := none
  lng : Option Int := none
  floorPlanId : Option String := none
  notes : Option String := none
deriving DecidableEq

/-- One entry of `GET /organizations/\x7borgId\x7d/inventoryDevices`. -/
structure InvDevice where
  serial : String
  model : String := ""
  networkId : Option String := none
deriving DecidableEq

/-- One entry of `GET /organizations/\x7borgId\x7d/devices/statuses`. -/
structure DeviceStatus where
  serial : String
  status : String := ""
  lastReportedAt : Option String := none
  publicIp : Option String := none
  lanIp : Option String := none
deriving DecidableEq

/-- Outcome of one `GET /networks/\x7bid\x7d/devices/\x7bserial\x7d` probe during
the search (meraki.js lines 134-159): success with a truthy body, success with
a falsy body, a 404, or another error.  Only `found` stops the search; the
other three make the loop continue to the next network. -/
inductive DevLookup
  | found (d : Device)
  | okEmpty
  | notFound
  | err (e : MErr)

/-- What the platform answers to one configured organization entry of
`this.organizations` (iterated in insertion order).  The per-organization
axios client of `this.clients` shares the Map key, so the entry also carries
the responses that client would get for the inventory, single-network and
statuses endpoints used after discovery. -/
structure OrgEntry where
  orgId : String
  orgRes : Except MErr OrgData
  networksRes : Except MErr (List NetworkInfo)
  deviceLookup : String → String → DevLookup
  inventoryRes : Except MErr (List InvDevice)
  networkById : String → Except MErr NetworkInfo
  statusesRes : Except MErr (List DeviceStatus)

/-- A remote call issued by `validateDevices`, tagged with the organization
whose client issued it. -/
inductive ApiCall
  | getOrg (orgId : String)
  | getNetworks (orgId : String)
  | getDevice (orgId netId serial : String)
  | getInventory (orgId : String)
  | getNetwork (orgId netId : String)
  | getStatuses (orgId : String)
deriving DecidableEq

/-- The failed device as assembled at meraki.js lines 137-143, together with
the organization entry it was found in (the Map keys of `this.organizations`
and `this.clients` are unique, so `getClient(foundOrganizationId)` is exactly
this entry's client). -/
structure FoundDevice where
  device : Device
  networkId : String
  networkName : String
  organizationId : String
  organizationName : String
  entry : OrgEntry

/-- Inner loop of the failed-device search (meraki.js lines 131-160): probe
each network in platform order, stop at the first truthy device response. -/
def searchNetworks (serial : String) (o : OrgEntry) (orgName : String) :
    List NetworkInfo → Option FoundDevice × List ApiCall
  | [] => (none, [])
  | n :: rest =>
    let call := ApiCall.getDevice o.orgId n.id serial
    match o.deviceLookup n.id serial with
    | .found d =>
      (some { device := d, networkId := n.id, networkName := n.name,
              organizationId := o.orgId, organizationName := orgName,
              entry := o }, [call])
    | _ =>
      let r := searchNetworks serial o orgName rest
      (r.1, call :: r.2)

/-- Per-organization part of the search (meraki.js lines 115-167): fetch the
organization and its network list, then run the inner loop; an error on
either fetch skips the whole organization. -/
def searchOrg (serial : String) (o : OrgEntry) : Option FoundDevice × List ApiCall :=
  match o.orgRes with
  | .error _ => (none, [ApiCall.getOrg o.orgId])
  | .ok orgData =>
    match o.networksRes with
    | .error _ => (none, [ApiCall.getOrg o.orgId, ApiCall.getNetworks o.orgId])
    | .ok nets =>
      let r := searchNetworks serial o orgData.name nets
      (r.1, ApiCall.getOrg o.orgId :: ApiCall.getNetworks o.orgId :: r.2)

/-- The failed-device search of `validateDevices` (meraki.js lines 109-168):
organizations in registry insertion order, `if (failedDevice) break` after the
first match. -/
def findFailedDevice (serial : String) : List OrgEntry → Option FoundDevice × List ApiCall
  | [] => (none, [])
  | o :: rest =>
    let r := searchOrg serial o
    match r.1 with
    | some f => (some f, r.2)
    | none =>
      let r2 := findFailedDevice serial rest
      (r2.1, r.2 ++ r2.2)

/-- Every call the search would issue if nothing stopped it: the complete
organization/network enumeration in search order. -/
def orgSearchCalls (serial : String) (o : OrgEntry) : List ApiCall :=
  ApiCall.getOrg o.orgId ::
    match o.orgRes with
    | .error _ => []
    | .ok _ =>
      ApiCall.getNetworks o.orgId ::
        match o.networksRes with
        | .error _ => []
        | .ok nets => nets.map fun n => ApiCall.getDevice o.orgId n.id serial

/-- The full enumeration over the whole registry. -/
def fullSearchCalls (serial : String) (orgs : List OrgEntry) : List ApiCall :=
  orgs.flatMap (orgSearchCalls serial)

/-- Live-status enrichment of `getEnhancedDeviceInfo` (meraki.js lines
221-238): `none` models the catch branch that returns the device unchanged. -/
structure EnhancedInfo where
  status : String
  lastReportedAt : Option String
  publicIp : Option String
  lanIp : Option String

/-- `MerakiAPI.getEnhancedDeviceInfo` (meraki.js lines 221-238), reduced to
the added fields. -/
def getEnhancedDeviceInfo (d : Device) (statusesRes : Except MErr (List DeviceStatus)) :
    Option EnhancedInfo :=
  match statusesRes with
  | .error _ => none
  | .ok sts =>
    let deviceStatus := sts.find? fun st => st.serial == d.serial
    some { status := jsOrStr (deviceStatus.map DeviceStatus.status) "unknown",
           lastReportedAt := jsOrNull (deviceStatus.bind DeviceStatus.lastReportedAt),
           publicIp := jsOrNull (deviceStatus.bind DeviceStatus.publicIp),
           lanIp := jsOrNull (deviceStatus.bind DeviceStatus.lanIp) }

/-- Result of `validateDevices`: the success object of meraki.js lines
201-210, or the failure object of lines 214-217. -/
inductive VOutcome
  | ok (fd : FoundDevice) (enh : Option EnhancedInfo) (replacement : InvDevice)
  | fail (message : Option String)

/-- Whether a validation outcome is the success object. -/
def VOutcome.isOk : VOutcome → Bool
  | .ok _ _ _ => true
  | .fail _ => false

/-- The failure message of a validation outcome (`none` on success). -/
def VOutcome.failMsg : VOutcome → Option String
  | .ok _ _ _ => none
  | .fail m => m

/-- The claim-conflict test of meraki.js line 189:
`replacementDevice.networkId && replacementDevice.networkId !== networkId`. -/
def hasConflict (rd : InvDevice) (networkId : String) : Bool :=
  match rd.networkId with
  | some nid => nid ≠ "" && nid ≠ networkId
  | none => false

/-- `MerakiAPI.validateDevices` (meraki.js lines 105-219), returning the
outcome together with the ordered list of remote calls issued. -/
def validateDevices (orgs : List OrgEntry) (failedSerial replacementSerial : String) :
    VOutcome × List ApiCall :=
  let s := findFailedDevice failedSerial orgs
  match s.1 with
  | none =>
    (.fail (some ("Failed device " ++ failedSerial ++
        " not found in any of the configured organizations: " ++
        String.intercalate ", " (orgs.map OrgEntry.orgId))), s.2)
  | some fd =>
    let invCall := ApiCall.getInventory fd.organizationId
    match fd.entry.inventoryRes with
    | .error e => (.fail (formatErrorMessage e), s.2 ++ [invCall])
    | .ok inventory =>
      match inventory.find? (fun device => device.serial == replacementSerial) with
      | none =>
        (.fail (some ("Replacement device " ++ replacementSerial ++
            " not found in organization " ++ fd.organizationName ++
            " inventory. Device must be in the same organization as the failed device.")),
         s.2 ++ [invCall])
      | some replacementDevice =>
        if hasConflict replacementDevice fd.networkId then
          let nid := replacementDevice.networkId.getD ""
          let nCall := ApiCall.getNetwork fd.organizationId nid
          match fd.entry.networkById nid with
          | .ok claimedNetwork =>
            (.fail (some ("Replacement device is already claimed by network: " ++
                claimedNetwork.name)), s.2 ++ [invCall, nCall])
          | .error e => (.fail (formatErrorMessage e), s.2 ++ [invCall, nCall])
        else
          (.ok fd (getEnhancedDeviceInfo fd.device fd.entry.statusesRes) replacementDevice,
           s.2 ++ [invCall, ApiCall.getStatuses fd.organizationId])

/-! ## Replacement pipeline (meraki.js lines 240-466) -/

/-- Status of one pipeline step record. -/
inductive OpStatus
  | pending
  | inProgress
  | completed
  | failed
deriving DecidableEq

/-- One entry of the `operations` array pushed by `replaceDevice`. -/
structure OpRecord where
  step : Nat
  message : String
  status : OpStatus
  timestamp : String
  error : Option String := none
deriving DecidableEq

/-- A remote call issued by `replaceDevice`, in pipeline order. -/
inductive RCall
  | getDevice
  | getRadio
  | getSwitchPorts
  | claim
  | putConfig
  | putRadio
  | putPort (portId : String)
  | remove
deriving DecidableEq

/-- One switch port record: its read-only `portId` plus the rest of the
configuration, kept opaque. -/
structure SwitchPort where
  portId : String
  config : String := ""
deriving DecidableEq

/-- The configuration payload built at meraki.js lines 318-360 and applied by
`PUT /networks/\x7bnetworkId\x7d/devices/\x7breplacementSerial\x7d`. -/
structure ConfigData where
  name : String
  tags : Option (List String) := none
  address : Option String := none
  lat : Option Int := none
  lng : Option Int := none
  floorPlanId : Option String := none
  notes : String
deriving DecidableEq

/-- The note marker of meraki.js line 354. -/
def replacementNote (failedSerial now : String) : String :=
  "[Replaced " ++ failedSerial ++ " on " ++ now ++ "]"

/-- Notes handling of meraki.js lines 353-360: append the marker to non-blank
existing notes, otherwise use the marker alone. -/
def buildNotes (originalNotes note : String) : String :=
  if jsTrim originalNotes ≠ "" then originalNotes ++ " " ++ note else note

/-- The payload construction of meraki.js lines 318-360. -/
def buildConfigData (failedDevice : Device) (failedSerial replacementSerial now : String) :
    ConfigData :=
  let name :=
    match failedDevice.name with
    | some n => if n ≠ "" && jsTrim n ≠ "" then n else replacementSerial
    | none => replacementSerial
  let tags :=
    match failedDevice.tags with
    | some ts => if ts.length > 0 then some ts else none
    | none => none
  let address :=
    match failedDevice.address with
    | some a => if a ≠ "" && jsTrim a ≠ "" then some a else none
    | none => none
  let coords :=
    if jsTruthyInt failedDevice.lat && jsTruthyInt failedDevice.lng then
      (failedDevice.lat, failedDevice.lng)
    else (none, none)
  let floorPlanId :=
    if jsTruthyStr failedDevice.floorPlanId then failedDevice.floorPlanId else none
  let originalNotes :=
    match failedDevice.notes with
    | some s => s
    | none => ""
  { name := name, tags := tags, address := address,
    lat := coords.1, lng := coords.2, floorPlanId := floorPlanId,
    notes := buildNotes originalNotes (replacementNote failedSerial now) }

/-- The `already claimed` test of meraki.js line 302:
`error.response?.data?.errors?.[0]?.includes(..)`. -/
def claimAlreadyClaimed (e : MErr) : Bool :=
  match e.response with
  | some r =>
    match r.errors with
    | some (e₀ :: _) => jsIncludes e₀ "already claimed"
    | _ => false
  | none => false

/-- The platform responses one `replaceDevice` run would observe, one field
per endpoint it can hit.  `clientConfigured` models whether
`this.getClient(organizationId)` finds a client (meraki.js lines 97-103);
`now` models `new Date().toISOString()` for the duration of the run. -/
structure REnv where
  clientConfigured : Bool := true
  now : String := ""
  failedDeviceRes : Except MErr Device
  radioRes : Except MErr String := .error { message := "Request failed with status code 404", response := some { status := 404, errors := none } }
  switchRes : Except MErr (List SwitchPort) := .error { message := "Request failed with status code 404", response := some { status := 404, errors := none } }
  claimRes : Except MErr Unit := .ok ()
  putConfigRes : Except MErr Unit := .ok ()
  putRadioRes : Except MErr Unit := .ok ()
  putPortRes : String → Except MErr Unit := fun _ => .ok ()
  removeRes : Except MErr Unit := .ok ()

/-- What `replaceDevice` returns: the `success` flag and user-facing message,
the `operations` step records, the applied payload (when step 3 was reached)
and the ordered list of remote calls issued. -/
structure RResult where
  success : Bool
  message : Option String
  operations : List OpRecord
  appliedConfig : Option ConfigData
  calls : List RCall

def step1Msg : String := "Retrieving failed device configuration"

def step2Msg : String := "Claiming replacement device to network"

def step3Msg : String := "Applying configuration to replacement device"

def step4Msg : String := "Removing failed device from network"

/-- The best-effort per-port update loop of meraki.js lines 377-389: the `try`
wraps the whole loop, so the first failing `PUT` stops the remaining ports
(but never the pipeline). -/
def portPuts (env : REnv) : List SwitchPort → List RCall
  | [] => []
  | p :: rest =>
    RCall.putPort p.portId ::
      match env.putPortRes p.portId with
      | .ok _ => portPuts env rest
      | .error _ => []

/-- `MerakiAPI.replaceDevice` (meraki.js lines 240-466).  Each step record is
pushed `in-progress` and later flipped to `completed`, or flipped to `failed`
with the error message attached by the catch block of lines 441-465; the
straight-line embedding builds the final array directly. -/
def replaceDevice (env : REnv) (failedSerial replacementSerial networkId organizationId : String) :
    RResult :=
  if env.clientConfigured = false then
    { success := false,
      message := some ("No API client configured for organization " ++ organizationId),
      operations := [], appliedConfig := none, calls := [] }
  else
    match env.failedDeviceRes with
    | .error e =>
      { success := false, message := formatErrorMessage e,
        operations := [⟨1, step1Msg, .failed, env.now, some e.message⟩],
        appliedConfig := none, calls := [RCall.getDevice] }
    | .ok failedDevice =>
      let radioSettings : Option String := env.radioRes.toOption
      let switchPorts : Option (List SwitchPort) := env.switchRes.toOption
      let op1 : OpRecord := ⟨1, step1Msg, .completed, env.now, none⟩
      let fetchCalls := [RCall.getDevice, RCall.getRadio, RCall.getSwitchPorts]
      let claimOutcome : Except MErr Unit :=
        match env.claimRes with
        | .ok _ => .ok ()
        | .error e => if claimAlreadyClaimed e then .ok () else .error e
      match claimOutcome with
      | .error e =>
        { success := false, message := formatErrorMessage e,
          operations := [op1, ⟨2, step2Msg, .failed, env.now, some e.message⟩],
          appliedConfig := none, calls := fetchCalls ++ [RCall.claim] }
      | .ok _ =>
        let op2 : OpRecord := ⟨2, step2Msg, .completed, env.now, none⟩
        let configData := buildConfigData failedDevice failedSerial replacementSerial env.now
        match env.putConfigRes with
        | .error e =>
          { success := false, message := formatErrorMessage e,
            operations := [op1, op2, ⟨3, step3Msg, .failed, env.now, some e.message⟩],
            appliedConfig := some configData,
            calls := fetchCalls ++ [RCall.claim, RCall.putConfig] }
        | .ok _ =>
          let bestEffortCalls :=
            (if radioSettings.isSome then [RCall.putRadio] else []) ++
              (match switchPorts with
               | some ports => if ports.length > 0 then portPuts env ports else []
               | none => [])
          let op3 : OpRecord := ⟨3, step3Msg, .completed, env.now, none⟩
          let callsTo4 := fetchCalls ++ [RCall.claim, RCall.putConfig] ++
            bestEffortCalls ++ [RCall.remove]
          match env.removeRes with
          | .error e =>
            { success := false, message := formatErrorMessage e,
              operations := [op1, op2, op3, ⟨4, step4Msg, .failed, env.now, some e.message⟩],
              appliedConfig := some configData, calls := callsTo4 }
          | .ok _ =>
            { success := true,
              message := some ("Device replacement completed successfully in organization " ++
                organizationId),
              operations := [op1, op2, op3, ⟨4, step4Msg, .completed, env.now, none⟩],
              appliedConfig := some configData, calls := callsTo4 }

/-! ## Validate request flow (public/js/app.js lines 216-260 and
routes/api.js lines 35-44, 113-138) -/

/-- What the user sees for one validate attempt: a client-side alert (no
request leaves the browser), the 400 of the `serialValidation` middleware, or
the response of `validateDevices`. -/
inductive ClientOutcome
  | formatAlert
  | sameSerialAlert
  | validationFailed400
  | serverResponse (r : VOutcome)

/-- The `POST /validate-devices` route (routes/api.js lines 113-138): the
`serialValidation` middleware (lines 35-44) trims each body field and tests
the serial pattern case-insensitively, rejecting with a 400 before any remote
call; the route then calls `validateDevices` on the uppercased fields. -/
def serverValidateRoute (orgs : List OrgEntry) (failedSerial replacementSerial : String) :
    ClientOutcome × List ApiCall :=
  if serialFormatOk (jsUpper (jsTrim failedSerial)) = false ||
      serialFormatOk (jsUpper (jsTrim replacementSerial)) = false then
    (.validationFailed400, [])
  else
    let r := validateDevices orgs (jsUpper (jsTrim failedSerial)) (jsUpper (jsTrim replacementSerial))
    (.serverResponse r.1, r.2)

/-- The browser-side `validateDevices` handler (public/js/app.js lines
216-260): trim and uppercase both fields, alert on a malformed serial, alert
on identical serials, and only then `POST /validate-devices`. -/
def clientValidate (orgs : List OrgEntry) (failedRaw replacementRaw : String) :
    ClientOutcome × List ApiCall :=
  let failedSerial := jsUpper (jsTrim failedRaw)
  let replacementSerial := jsUpper (jsTrim replacementRaw)
  if validateSerialFormat failedSerial = false ||
      validateSerialFormat replacementSerial = false then
    (.formatAlert, [])
  else if failedSerial = replacementSerial then
    (.sameSerialAlert, [])
  else
    serverValidateRoute orgs failedSerial replacementSerial

/-! ## Derived definitions and verification fixtures -/

def DevLookup.isFound : DevLookup → Bool
  | .found _ => true
  | _ => false

def orgAccessibleNets (o : OrgEntry) : List NetworkInfo :=
  match o.orgRes, o.networksRes with
  | .ok _, .ok nets => nets
  | _, _ => []

def orgNoMatch (serial : String) (o : OrgEntry) : Prop :=
  ∀ n ∈ orgAccessibleNets o, (o.deviceLookup n.id serial).isFound = false

def ApiCall.isInventory : ApiCall → Bool
  | .getInventory _ => true
  | _ => false

def wNet1 : NetworkInfo := { id := "N1", name := "Net One" }

def wNet2 : NetworkInfo := { id := "N2", name := "Net Two" }

def wDev : Device := { serial := "AAAA-1111-BBBB", name := some "ap-lobby", notes := some "T" }

def wOrgA : OrgEntry :=
  { orgId := "OA",
    orgRes := .ok { name := "Org A" },
    networksRes := .ok [wNet1, wNet2],
    deviceLookup := fun nid s =>
      if nid = "N2" && s = "AAAA-1111-BBBB" then .found wDev else .notFound,
    inventoryRes := .ok [{ serial := "CCCC-2222-DDDD", model := "MR44" }],
    networkById := fun _ => .error { message := "nf", response := some { status := 404, errors := none } },
    statusesRes := .error { message := "boom", response := none } }

def wOrgB : OrgEntry :=
  { orgId := "OB",
    orgRes := .ok { name := "Org B" },
    networksRes := .ok [{ id := "N3", name := "Net Three" }],
    deviceLookup := fun _ _ => .notFound,
    inventoryRes := .ok [{ serial := "EEEE-3333-FFFF", model := "MR44" }],
    networkById := fun _ => .error { message := "nf", response := none },
    statusesRes := .ok [] }

def wEnvCfgFail : REnv :=
  { now := "2025-01-01T00:00:00.000Z",
    failedDeviceRes := .ok wDev,
    putConfigRes := .error { message := "cfgboom", response := none } }

def c4ClaimErr : MErr :=
  { message := "Request failed with status code 400",
    response := some
      { status := 400,
        errors := some ["Device CCCC-2222-DDDD is already claimed by network Lobby-West"] } }

def c4Env : REnv :=
  { now := "2025-01-01T00:00:00.000Z",
    failedDeviceRes := .ok { serial := "AAAA-1111-BBBB", name := some "ap-1" },
    claimRes := .error c4ClaimErr }

def c4AbortErr : MErr :=
  { message := "Request failed with status code 400",
    response := some { status := 400, errors := some ["Devices not found"] } }

def c4AbortEnv : REnv :=
  { now := "2025-01-01T00:00:00.000Z",
    failedDeviceRes := .ok wDev,
    claimRes := .error c4AbortErr }

def c7TagsDevice : Device :=
  { serial := "AAAA-1111-BBBB", name := some "ap-1", tags := some [] }

def c7FullDevice : Device :=
  { serial := "AAAA-1111-BBBB", name := some "ap-7", tags := some ["floor3", "west"],
    address := some "500 Main St", lat := some 37, lng := some (-122),
    floorPlanId := some "fp-9", notes := some "T" }

def c9Err429 : MErr :=
  { message := "Request failed with status code 429",
    response := some
      { status := 429,
        errors := some ["API budget exceeded for organization key"] } }

def c8Inv : InvDevice :=
  { serial := "CCCC-2222-DDDD", model := "MR44", networkId := some "N9" }

def c8Org : OrgEntry :=
  { wOrgA with
    inventoryRes := .ok [c8Inv],
    networkById := fun nid =>
      if nid = "N9" then .ok { id := "N9", name := "Other Net" }
      else .error { message := "nf", response := none } }


/-! ## Theorems -/

theorem mem_dropWhile_of_not {α : Type} {p : α → Bool} {l : List α} {c : α}
    (hc : c ∈ l) (hp : p c = false) : c ∈ l.dropWhile p := by
  induction l with
  | nil => exact absurd hc (List.not_mem_nil c)
  | cons a t ih =>
    rcases List.mem_cons.mp hc with rfl | h
    · rw [List.dropWhile_cons, hp]
      simp
    · rw [List.dropWhile_cons]
      by_cases ha : p a
      · simpa [ha] using ih h
      · simp [ha, List.mem_cons, h]

theorem trimList_ne_nil {l : List Char} {c : Char}
    (hc : c ∈ l) (hw : jsWhitespace c = false) : trimList l ≠ [] := by
  intro h
  unfold trimList at h
  rw [List.reverse_eq_nil_iff, List.dropWhile_eq_nil_iff] at h
  have hm : c ∈ (l.dropWhile jsWhitespace).reverse :=
    List.mem_reverse.mpr (mem_dropWhile_of_not hc hw)
  have := h c hm
  simp [hw] at this

theorem jsTrim_ne_empty {s : String} {c : Char}
    (hc : c ∈ s.data) (hw : jsWhitespace c = false) : jsTrim s ≠ "" := by
  intro h
  exact trimList_ne_nil hc hw (congrArg String.data h)

theorem dropWhile_eq_self_of_all {α : Type} {p : α → Bool} {l : List α}
    (h : ∀ c ∈ l, p c = false) : l.dropWhile p = l := by
  cases l with
  | nil => rfl
  | cons a t => rw [List.dropWhile_cons, h a (List.mem_cons_self a t)]; simp

theorem trimList_eq_self_of_all {l : List Char}
    (h : ∀ c ∈ l, jsWhitespace c = false) : trimList l = l := by
  unfold trimList
  rw [dropWhile_eq_self_of_all h]
  rw [dropWhile_eq_self_of_all (fun c hc => h c (List.mem_reverse.mp hc))]
  exact List.reverse_reverse l

theorem isSerialChar_not_ws {c : Char} (h : isSerialChar c = true) :
    jsWhitespace c = false := by
  unfold isSerialChar at h
  unfold jsWhitespace
  simp only [Bool.or_eq_true, Bool.and_eq_true, decide_eq_true_eq] at h
  simp only [Bool.or_eq_false_iff, Bool.and_eq_false_iff, decide_eq_false_iff_not]
  repeat' apply And.intro
  all_goals first
    | (intro heq; subst heq; revert h; decide)
    | omega
    | (simp only [decide_eq_false_iff_not]; omega)

theorem serial_chars_not_ws {s : String} (h : serialFormatOk s = true) :
    ∀ c ∈ s.data, jsWhitespace c = false := by
  unfold serialFormatOk at h
  intro c hc
  split at h
  case _ a b d e h1 f g i j h2 k l m n heq =>
    rw [heq] at hc
    simp only [Bool.and_eq_true, decide_eq_true_eq, List.all_eq_true] at h
    obtain ⟨⟨hd1, hd2⟩, hall⟩ := h
    simp only [List.mem_cons, List.not_mem_nil, or_false] at hc
    have hdash : jsWhitespace '-' = false := by decide
    rcases hc with rfl | rfl | rfl | rfl | rfl | rfl | rfl | rfl | rfl | rfl | rfl | rfl | rfl | rfl
    all_goals first
      | (subst hd1; exact hdash)
      | (subst hd2; exact hdash)
      | (apply isSerialChar_not_ws; apply hall; simp)
  case _ => exact absurd h (by simp)

theorem jsTrim_of_serialFormatOk {s : String} (h : serialFormatOk s = true) :
    jsTrim s = s := by
  unfold jsTrim
  rw [trimList_eq_self_of_all (serial_chars_not_ws h)]

theorem toNat_ofNat_valid {n : Nat} (h : n < 55296) : (Char.ofNat n).toNat = n := by
  unfold Char.ofNat
  rw [dif_pos (Or.inl h)]
  rfl

theorem isSerialChar_upper {c : Char} (h : isSerialChar c = true) :
    isSerialChar (jsUpperChar c) = true := by
  unfold jsUpperChar
  by_cases hl : (97 ≤ c.toNat && c.toNat ≤ 122) = true
  · rw [if_pos hl]
    simp only [Bool.and_eq_true, decide_eq_true_eq] at hl
    unfold isSerialChar
    rw [toNat_ofNat_valid (by omega)]
    simp only [Bool.or_eq_true, Bool.and_eq_true, decide_eq_true_eq]
    omega
  · rw [if_neg hl]; exact h

theorem serialFormatOk_upper {s : String} (h : serialFormatOk s = true) :
    serialFormatOk (jsUpper s) = true := by
  unfold serialFormatOk at h ⊢
  unfold jsUpper
  split at h
  case _ a b d e h1 f g i j h2 k l m n heq =>
    simp only [heq, List.map]
    simp only [Bool.and_eq_true, decide_eq_true_eq, List.all_eq_true] at h
    obtain ⟨⟨hd1, hd2⟩, hall⟩ := h
    subst hd1; subst hd2
    have hdash : jsUpperChar '-' = '-' := by decide
    simp only [hdash, Bool.and_eq_true, decide_eq_true_eq, List.all_eq_true,
      and_true, true_and, and_self]
    intro c hc
    simp only [List.mem_cons, List.not_mem_nil, or_false] at hc
    rcases hc with rfl | rfl | rfl | rfl | rfl | rfl | rfl | rfl | rfl | rfl | rfl | rfl
    all_goals (apply isSerialChar_upper; apply hall; simp)
  case _ => exact absurd h (by simp)

theorem validateSerialFormat_normalized {s : String}
    (h : validateSerialFormat s = true) :
    validateSerialFormat (jsUpper (jsTrim s)) = true := by
  unfold validateSerialFormat at h ⊢
  rw [jsTrim_of_serialFormatOk h]
  exact serialFormatOk_upper h

theorem bracket_mem_note_append (t m : String) :
    '[' ∈ (t ++ " " ++ ("[Replaced " ++ m)).data := by
  rw [String.data_append]
  apply List.mem_append_right
  rw [String.data_append]
  apply List.mem_append_left
  decide

theorem jsTrim_append_note_ne (t fs now : String) :
    jsTrim (t ++ " " ++ replacementNote fs now) ≠ "" := by
  apply jsTrim_ne_empty (c := '[')
  · unfold replacementNote
    rw [show "[Replaced " ++ fs ++ " on " ++ now ++ "]" =
      "[Replaced " ++ (fs ++ " on " ++ now ++ "]") by
        simp [String.append_assoc]]
    exact bracket_mem_note_append t (fs ++ " on " ++ now ++ "]")
  · decide

theorem searchNetworks_all_miss {serial orgName : String} {o : OrgEntry}
    {nets : List NetworkInfo}
    (h : ∀ n ∈ nets, (o.deviceLookup n.id serial).isFound = false) :
    searchNetworks serial o orgName nets =
      (none, nets.map fun n => ApiCall.getDevice o.orgId n.id serial) := by
  induction nets with
  | nil => rfl
  | cons n rest ih =>
    have hn := h n (List.mem_cons_self n rest)
    have hrest := ih fun m hm => h m (List.mem_cons_of_mem n hm)
    cases hl : o.deviceLookup n.id serial with
    | found d => rw [hl] at hn; simp [DevLookup.isFound] at hn
    | okEmpty => simp [searchNetworks, hl, hrest]
    | notFound => simp [searchNetworks, hl, hrest]
    | err e => simp [searchNetworks, hl, hrest]

theorem searchNetworks_first_hit {serial orgName : String} {o : OrgEntry}
    {npre npost : List NetworkInfo} {n : NetworkInfo} {d : Device}
    (hpre : ∀ m ∈ npre, (o.deviceLookup m.id serial).isFound = false)
    (hn : o.deviceLookup n.id serial = .found d) :
    searchNetworks serial o orgName (npre ++ n :: npost) =
      (some { device := d, networkId := n.id, networkName := n.name,
              organizationId := o.orgId, organizationName := orgName, entry := o },
       (npre.map fun m => ApiCall.getDevice o.orgId m.id serial) ++
         [ApiCall.getDevice o.orgId n.id serial]) := by
  induction npre with
  | nil => simp [searchNetworks, hn]
  | cons m rest ih =>
    have hm := hpre m (List.mem_cons_self m rest)
    have hrest := ih fun m' hm' => hpre m' (List.mem_cons_of_mem m hm')
    cases hl : o.deviceLookup m.id serial with
    | found d' => rw [hl] at hm; simp [DevLookup.isFound] at hm
    | okEmpty => simp [searchNetworks, hl, hrest]
    | notFound => simp [searchNetworks, hl, hrest]
    | err e => simp [searchNetworks, hl, hrest]

theorem searchOrg_of_noMatch {serial : String} {o : OrgEntry}
    (h : orgNoMatch serial o) :
    searchOrg serial o = (none, orgSearchCalls serial o) := by
  unfold orgNoMatch orgAccessibleNets at h
  unfold searchOrg orgSearchCalls
  cases horg : o.orgRes with
  | error e => rfl
  | ok od =>
    cases hnet : o.networksRes with
    | error e => rfl
    | ok nets =>
      rw [horg, hnet] at h
      have h' : ∀ n ∈ nets, (o.deviceLookup n.id serial).isFound = false := h
      simp [searchNetworks_all_miss h']

theorem findFailedDevice_skip_front {serial : String} {pre rest : List OrgEntry}
    (hpre : ∀ o ∈ pre, orgNoMatch serial o) :
    findFailedDevice serial (pre ++ rest) =
      ((findFailedDevice serial rest).1,
        pre.flatMap (orgSearchCalls serial) ++ (findFailedDevice serial rest).2) := by
  induction pre with
  | nil => simp
  | cons o t ih =>
    have ho := hpre o (List.mem_cons_self o t)
    have ht := ih fun o' h' => hpre o' (List.mem_cons_of_mem o h')
    have hso := @searchOrg_of_noMatch serial o ho
    simp only [List.cons_append, findFailedDevice]
    rw [hso]
    simp only [List.append_eq]
    rw [ht]
    simp [List.append_assoc]

theorem searchNetworks_trace_of_none {serial orgName : String} {o : OrgEntry}
    {nets : List NetworkInfo}
    (h : (searchNetworks serial o orgName nets).1 = none) :
    (searchNetworks serial o orgName nets).2 =
      nets.map fun n => ApiCall.getDevice o.orgId n.id serial := by
  induction nets with
  | nil => rfl
  | cons n rest ih =>
    cases hl : o.deviceLookup n.id serial with
    | found d => rw [searchNetworks, hl] at h; simp at h
    | okEmpty =>
      rw [searchNetworks, hl] at h ⊢
      simp only [List.map_cons, List.cons.injEq, true_and]
      exact ih h
    | notFound =>
      rw [searchNetworks, hl] at h ⊢
      simp only [List.map_cons, List.cons.injEq, true_and]
      exact ih h
    | err e =>
      rw [searchNetworks, hl] at h ⊢
      simp only [List.map_cons, List.cons.injEq, true_and]
      exact ih h

theorem searchOrg_trace_of_none {serial : String} {o : OrgEntry}
    (h : (searchOrg serial o).1 = none) :
    (searchOrg serial o).2 = orgSearchCalls serial o := by
  unfold searchOrg at h ⊢
  unfold orgSearchCalls
  cases horg : o.orgRes with
  | error e => rfl
  | ok od =>
    cases hnet : o.networksRes with
    | error e => rfl
    | ok nets =>
      rw [horg, hnet] at h
      simp only at h
      simp only
      rw [searchNetworks_trace_of_none h]

theorem findFailedDevice_exhaustive {serial : String} {orgs : List OrgEntry}
    (h : (findFailedDevice serial orgs).1 = none) :
    (findFailedDevice serial orgs).2 = fullSearchCalls serial orgs := by
  induction orgs with
  | nil => rfl
  | cons o rest ih =>
    rcases hso : searchOrg serial o with ⟨r1, r2⟩
    rw [findFailedDevice, hso] at h ⊢
    cases r1 with
    | some f => simp at h
    | none =>
      have h2 : (findFailedDevice serial rest).1 = none := h
      have hr2 : r2 = orgSearchCalls serial o := by
        have ht := @searchOrg_trace_of_none serial o (by rw [hso])
        rw [hso] at ht
        exact ht
      show r2 ++ (findFailedDevice serial rest).2 = fullSearchCalls serial (o :: rest)
      rw [hr2, ih h2]
      simp [fullSearchCalls]

theorem searchNetworks_no_inventory {serial orgName : String} {o : OrgEntry}
    {nets : List NetworkInfo} :
    ∀ c ∈ (searchNetworks serial o orgName nets).2, c.isInventory = false := by
  induction nets with
  | nil => intro c hc; exact absurd hc (List.not_mem_nil c)
  | cons n rest ih =>
    intro c hc
    cases hl : o.deviceLookup n.id serial with
    | found d =>
      rw [searchNetworks, hl] at hc
      simp only [List.mem_singleton] at hc
      subst hc; rfl
    | okEmpty =>
      rw [searchNetworks, hl] at hc
      rcases List.mem_cons.mp hc with rfl | h
      · rfl
      · exact ih c h
    | notFound =>
      rw [searchNetworks, hl] at hc
      rcases List.mem_cons.mp hc with rfl | h
      · rfl
      · exact ih c h
    | err e =>
      rw [searchNetworks, hl] at hc
      rcases List.mem_cons.mp hc with rfl | h
      · rfl
      · exact ih c h

theorem searchOrg_no_inventory {serial : String} {o : OrgEntry} :
    ∀ c ∈ (searchOrg serial o).2, c.isInventory = false := by
  intro c hc
  unfold searchOrg at hc
  cases horg : o.orgRes with
  | error e =>
    rw [horg] at hc
    simp only [List.mem_singleton] at hc
    subst hc; rfl
  | ok od =>
    cases hnet : o.networksRes with
    | error e =>
      rw [horg, hnet] at hc
      rcases List.mem_cons.mp hc with rfl | h
      · rfl
      · simp only [List.mem_singleton] at h
        subst h; rfl
    | ok nets =>
      rw [horg, hnet] at hc
      rcases List.mem_cons.mp hc with rfl | h
      · rfl
      · rcases List.mem_cons.mp h with rfl | h2
        · rfl
        · exact searchNetworks_no_inventory c h2

theorem findFailedDevice_no_inventory {serial : String} {orgs : List OrgEntry} :
    ∀ c ∈ (findFailedDevice serial orgs).2, c.isInventory = false := by
  induction orgs with
  | nil => intro c hc; exact absurd hc (List.not_mem_nil c)
  | cons o rest ih =>
    intro c hc
    rw [findFailedDevice] at hc
    rcases hso : (searchOrg serial o).1 with _ | f
    · rw [hso] at hc
      rcases List.mem_append.mp hc with h | h
      · exact searchOrg_no_inventory c h
      · exact ih c h
    · rw [hso] at hc
      exact searchOrg_no_inventory c hc

theorem validateDevices_after_find (orgs : List OrgEntry) (fs rs : String) (fd : FoundDevice)
    (hfind : (findFailedDevice fs orgs).1 = some fd) :
    ∃ extra : List ApiCall,
      (validateDevices orgs fs rs).2 =
        (findFailedDevice fs orgs).2 ++ ApiCall.getInventory fd.organizationId :: extra ∧
      ∀ c ∈ extra, c.isInventory = false := by
  unfold validateDevices
  rcases hs : findFailedDevice fs orgs with ⟨s1, s2⟩
  rw [hs] at hfind
  simp only at hfind
  subst hfind
  cases hinv : fd.entry.inventoryRes with
  | error e => exact ⟨[], by simp [hinv], by simp⟩
  | ok inventory =>
    cases hrepl : inventory.find? (fun device => device.serial == rs) with
    | none => exact ⟨[], by simp [hinv, hrepl], by simp⟩
    | some rd =>
      by_cases hconf : hasConflict rd fd.networkId
      · cases hnb : fd.entry.networkById (rd.networkId.getD "") with
        | ok claimedNetwork =>
          refine ⟨[ApiCall.getNetwork fd.organizationId (rd.networkId.getD "")],
            by simp [hinv, hrepl, hconf, hnb], ?_⟩
          intro c hc
          simp only [List.mem_singleton] at hc
          subst hc; rfl
        | error e =>
          refine ⟨[ApiCall.getNetwork fd.organizationId (rd.networkId.getD "")],
            by simp [hinv, hrepl, hconf, hnb], ?_⟩
          intro c hc
          simp only [List.mem_singleton] at hc
          subst hc; rfl
      · refine ⟨[ApiCall.getStatuses fd.organizationId],
          by simp [hinv, hrepl, hconf], ?_⟩
        intro c hc
        simp only [List.mem_singleton] at hc
        subst hc; rfl

/-- C1: for every well-formed serial S, a validate attempt with
failedSerial = replacementSerial = S is rejected by the same-serial check of
the portal (public/js/app.js line 225) before the request leaves the browser:
the outcome is the same-serial alert and the list of remote platform calls is
empty, so neither the serial-format middleware nor `validateDevices` ever
runs, let alone issues a remote request. -/
theorem c1_same_serial_rejected (orgs : List OrgEntry) (S : String)
    (h : validateSerialFormat S = true) :
    clientValidate orgs S S = (ClientOutcome.sameSerialAlert, []) := by
  unfold clientValidate
  have hv : validateSerialFormat (jsUpper (jsTrim S)) = true :=
    validateSerialFormat_normalized h
  simp [hv]

/-- Witness for C1 at the concrete serial Q2AB-12CD-34EF. -/
theorem c1_same_serial_rejected_witness :
    validateSerialFormat "Q2AB-12CD-34EF" = true ∧
    clientValidate [] "Q2AB-12CD-34EF" "Q2AB-12CD-34EF" = (ClientOutcome.sameSerialAlert, []) :=
  ⟨by decide, c1_same_serial_rejected [] "Q2AB-12CD-34EF" (by decide)⟩

/-- C2: the failed-device search iterates organizations in registry insertion
order and networks in platform order.  First part: if every organization
before `o` has no match, and inside `o` every network before `n` misses while
`n` hits, the search returns the device found at (o, n), its call trace is
exactly the enumeration up to and including that lookup (so nothing is
queried after the match), the trace is a prefix of the full enumeration, and
its last call is the successful lookup.  Second part: a not-found result is
reported only after the whole enumeration has been issued. -/
theorem c2_search_order_and_short_circuit :
    (∀ (serial : String) (pre post : List OrgEntry) (o : OrgEntry)
       (npre npost : List NetworkInfo) (n : NetworkInfo) (od : OrgData) (d : Device),
      (∀ o' ∈ pre, orgNoMatch serial o') →
      o.orgRes = .ok od →
      o.networksRes = .ok (npre ++ n :: npost) →
      (∀ m ∈ npre, (o.deviceLookup m.id serial).isFound = false) →
      o.deviceLookup n.id serial = .found d →
      (findFailedDevice serial (pre ++ o :: post)).1 =
          some { device := d, networkId := n.id, networkName := n.name,
                 organizationId := o.orgId, organizationName := od.name, entry := o } ∧
        (findFailedDevice serial (pre ++ o :: post)).2 =
          (pre.flatMap (orgSearchCalls serial) ++
            (ApiCall.getOrg o.orgId :: ApiCall.getNetworks o.orgId ::
              npre.map fun m => ApiCall.getDevice o.orgId m.id serial)) ++
            [ApiCall.getDevice o.orgId n.id serial] ∧
        (findFailedDevice serial (pre ++ o :: post)).2 <+:
          fullSearchCalls serial (pre ++ o :: post) ∧
        (findFailedDevice serial (pre ++ o :: post)).2.getLast? =
          some (ApiCall.getDevice o.orgId n.id serial)) ∧
    (∀ (serial : String) (orgs : List OrgEntry),
      (findFailedDevice serial orgs).1 = none →
      (findFailedDevice serial orgs).2 = fullSearchCalls serial orgs) := by
  constructor
  · intro serial pre post o npre npost n od d hpre horg hnets hnpre hfound
    have hsn := @searchNetworks_first_hit serial od.name o npre npost n d hnpre hfound
    have hso : searchOrg serial o =
        (some { device := d, networkId := n.id, networkName := n.name,
                organizationId := o.orgId, organizationName := od.name, entry := o },
         ApiCall.getOrg o.orgId :: ApiCall.getNetworks o.orgId ::
           ((npre.map fun m => ApiCall.getDevice o.orgId m.id serial) ++
             [ApiCall.getDevice o.orgId n.id serial])) := by
      unfold searchOrg
      rw [horg, hnets]
      simp only [hsn]
    have hmain : findFailedDevice serial (pre ++ o :: post) =
        (some { device := d, networkId := n.id, networkName := n.name,
                organizationId := o.orgId, organizationName := od.name, entry := o },
         pre.flatMap (orgSearchCalls serial) ++
           (ApiCall.getOrg o.orgId :: ApiCall.getNetworks o.orgId ::
             ((npre.map fun m => ApiCall.getDevice o.orgId m.id serial) ++
               [ApiCall.getDevice o.orgId n.id serial]))) := by
      rw [findFailedDevice_skip_front hpre]
      rw [findFailedDevice, hso]
    refine ⟨by rw [hmain], by rw [hmain]; simp [List.append_assoc], ?_, ?_⟩
    · rw [hmain]
      refine ⟨(npost.map fun m => ApiCall.getDevice o.orgId m.id serial) ++
        post.flatMap (orgSearchCalls serial), ?_⟩
      simp only [fullSearchCalls, List.flatMap_append, List.flatMap_cons]
      have : orgSearchCalls serial o =
          ApiCall.getOrg o.orgId :: ApiCall.getNetworks o.orgId ::
            ((npre.map fun m => ApiCall.getDevice o.orgId m.id serial) ++
              (ApiCall.getDevice o.orgId n.id serial ::
                npost.map fun m => ApiCall.getDevice o.orgId m.id serial)) := by
        unfold orgSearchCalls
        rw [horg, hnets]
        simp
      rw [this]
      simp [List.append_assoc]
    · rw [hmain]
      have : pre.flatMap (orgSearchCalls serial) ++
          (ApiCall.getOrg o.orgId :: ApiCall.getNetworks o.orgId ::
            ((npre.map fun m => ApiCall.getDevice o.orgId m.id serial) ++
              [ApiCall.getDevice o.orgId n.id serial])) =
          (pre.flatMap (orgSearchCalls serial) ++
            (ApiCall.getOrg o.orgId :: ApiCall.getNetworks o.orgId ::
              npre.map fun m => ApiCall.getDevice o.orgId m.id serial)) ++
            [ApiCall.getDevice o.orgId n.id serial] := by
        simp [List.append_assoc]
      rw [this, List.getLast?_concat]
  · exact fun serial orgs h => findFailedDevice_exhaustive h

/-- Witness for C2: two organizations, the device sits in the second network
of the first; the search stops at that lookup, and a missing serial is
reported only after the full enumeration. -/
theorem c2_search_order_witness :
    (findFailedDevice "AAAA-1111-BBBB" [wOrgA, wOrgB]).1 =
      some { device := wDev, networkId := "N2", networkName := "Net Two",
             organizationId := "OA", organizationName := "Org A", entry := wOrgA } ∧
    (findFailedDevice "AAAA-1111-BBBB" [wOrgA, wOrgB]).2.getLast? =
      some (ApiCall.getDevice "OA" "N2" "AAAA-1111-BBBB") ∧
    (findFailedDevice "ZZZZ-9999-ZZZZ" [wOrgA, wOrgB]).2 =
      fullSearchCalls "ZZZZ-9999-ZZZZ" [wOrgA, wOrgB] := by
  have h := c2_search_order_and_short_circuit.1 "AAAA-1111-BBBB" [] [wOrgB] wOrgA
    [wNet1] [] wNet2 { name := "Org A" } wDev
    (by simp) rfl rfl
    (by intro m hm; rw [List.mem_singleton] at hm; subst hm; rfl)
    rfl
  have h2 := c2_search_order_and_short_circuit.2 "ZZZZ-9999-ZZZZ" [wOrgA, wOrgB] rfl
  exact ⟨h.1, h.2.2.2, h2⟩

/-- C3: whenever the pipeline fails after the client lookup succeeded, the
returned operations list is a non-empty list of at most four records whose
step numbers are consecutive from 1, all records before the last are
completed with no error attached, and the last record is failed with an
error message attached; in particular, if step 3 (apply configuration)
throws after steps 1 and 2 succeeded, the run returns success = false with
exactly three records - steps 1 and 2 completed, step 3 failed with the
error message - and step 4 never executes. -/
theorem c3_abort_on_step_error :
    (∀ (env : REnv) (fs rs nid oid : String),
      env.clientConfigured = true →
      (replaceDevice env fs rs nid oid).success = false →
      1 ≤ (replaceDevice env fs rs nid oid).operations.length ∧
      (replaceDevice env fs rs nid oid).operations.length ≤ 4 ∧
      (replaceDevice env fs rs nid oid).operations.map OpRecord.step =
        List.range' 1 (replaceDevice env fs rs nid oid).operations.length ∧
      (∀ op ∈ (replaceDevice env fs rs nid oid).operations.dropLast,
        op.status = OpStatus.completed ∧ op.error = none) ∧
      (∃ last, (replaceDevice env fs rs nid oid).operations.getLast? = some last ∧
        last.status = OpStatus.failed ∧ last.error.isSome = true)) ∧
    (∀ (env : REnv) (fs rs nid oid : String) (d : Device) (e : MErr),
      env.clientConfigured = true →
      env.failedDeviceRes = .ok d →
      env.claimRes = .ok () →
      env.putConfigRes = .error e →
      (replaceDevice env fs rs nid oid).success = false ∧
      (replaceDevice env fs rs nid oid).message = formatErrorMessage e ∧
      (replaceDevice env fs rs nid oid).operations =
        [⟨1, step1Msg, OpStatus.completed, env.now, none⟩,
         ⟨2, step2Msg, OpStatus.completed, env.now, none⟩,
         ⟨3, step3Msg, OpStatus.failed, env.now, some e.message⟩] ∧
      RCall.remove ∉ (replaceDevice env fs rs nid oid).calls) := by
  constructor
  · intro env fs rs nid oid hcc hfail
    revert hfail
    unfold replaceDevice
    simp only [hcc, Bool.true_eq_false, if_false]
    cases h1 : env.failedDeviceRes with
    | error e => intro hfail; simp [List.range', List.getLast?]
    | ok d =>
      cases h2 : env.claimRes with
      | error e =>
        by_cases hac : claimAlreadyClaimed e
        · simp only [hac, if_true]
          cases h3 : env.putConfigRes with
          | error e3 => intro hfail; simp [List.range', List.getLast?]
          | ok u3 =>
            cases h4 : env.removeRes with
            | error e4 => intro hfail; simp [List.range', List.getLast?]
            | ok u4 => intro hfail; simp at hfail
        · simp only [hac, if_false]
          intro hfail; simp [List.range', List.getLast?]
      | ok u =>
        cases h3 : env.putConfigRes with
        | error e3 => intro hfail; simp [List.range', List.getLast?]
        | ok u3 =>
          cases h4 : env.removeRes with
          | error e4 => intro hfail; simp [List.range', List.getLast?]
          | ok u4 => intro hfail; simp at hfail
  · intro env fs rs nid oid d e hcc h1 h2 h3
    unfold replaceDevice
    simp only [hcc, Bool.true_eq_false, if_false, h1, h2, h3]
    simp

/-- Witness for C3: a run whose configuration PUT fails. -/
theorem c3_abort_witness :
    1 ≤ (replaceDevice wEnvCfgFail "AAAA-1111-BBBB" "CCCC-2222-DDDD" "N2" "OA").operations.length ∧
    (replaceDevice wEnvCfgFail "AAAA-1111-BBBB" "CCCC-2222-DDDD" "N2" "OA").operations.length ≤ 4 ∧
    (replaceDevice wEnvCfgFail "AAAA-1111-BBBB" "CCCC-2222-DDDD" "N2" "OA").success = false ∧
    (replaceDevice wEnvCfgFail "AAAA-1111-BBBB" "CCCC-2222-DDDD" "N2" "OA").operations =
      [⟨1, step1Msg, OpStatus.completed, "2025-01-01T00:00:00.000Z", none⟩,
       ⟨2, step2Msg, OpStatus.completed, "2025-01-01T00:00:00.000Z", none⟩,
       ⟨3, step3Msg, OpStatus.failed, "2025-01-01T00:00:00.000Z", some "cfgboom"⟩] := by
  have h1 := c3_abort_on_step_error.1 wEnvCfgFail "AAAA-1111-BBBB" "CCCC-2222-DDDD" "N2" "OA"
    rfl rfl
  have h2 := c3_abort_on_step_error.2 wEnvCfgFail "AAAA-1111-BBBB" "CCCC-2222-DDDD" "N2" "OA"
    wDev { message := "cfgboom", response := none } rfl rfl rfl rfl
  exact ⟨h1.1, h1.2.1, h2.1, h2.2.2.1⟩

/-- C4 counterexample: a claim failure whose platform error message is
"Device CCCC-2222-DDDD is already claimed by network Lobby-West" - an
already-claimed-by-a-DIFFERENT-network response, not an "already claimed in
this network" response (the target network is N-HQ) - is nevertheless
treated as success: step 2 ends completed, steps 3 and 4 execute, and the
run succeeds, refuting "every other claim error aborts the pipeline". -/
theorem c4_counterexample_other_network_claim_error_continues :
    claimAlreadyClaimed c4ClaimErr = true ∧
    (replaceDevice c4Env "AAAA-1111-BBBB" "CCCC-2222-DDDD" "N-HQ" "O1").success = true ∧
    (replaceDevice c4Env "AAAA-1111-BBBB" "CCCC-2222-DDDD" "N-HQ" "O1").operations.map
      OpRecord.status = [OpStatus.completed, OpStatus.completed, OpStatus.completed,
        OpStatus.completed] ∧
    RCall.putConfig ∈ (replaceDevice c4Env "AAAA-1111-BBBB" "CCCC-2222-DDDD" "N-HQ" "O1").calls ∧
    RCall.remove ∈ (replaceDevice c4Env "AAAA-1111-BBBB" "CCCC-2222-DDDD" "N-HQ" "O1").calls := by
  refine ⟨by decide, ?_, ?_, ?_, ?_⟩ <;> decide

/-- C4 (amended): step 2 treats a claim failure as success exactly when the
first entry of the platform error list contains the substring
"already claimed", whichever network the message names; any claim failure
without such a first entry aborts the pipeline: step 2 ends failed with the
error message, no step 3 or 4 record exists, and neither the configuration
PUT nor the removal call is issued. -/
theorem c4_claim_error_substring_dichotomy (env : REnv) (fs rs nid oid : String)
    (d : Device) (e : MErr)
    (hcc : env.clientConfigured = true)
    (h1 : env.failedDeviceRes = .ok d)
    (he : env.claimRes = .error e) :
    (claimAlreadyClaimed e = true →
      ∃ rest, (replaceDevice env fs rs nid oid).operations =
        ⟨1, step1Msg, OpStatus.completed, env.now, none⟩ ::
        ⟨2, step2Msg, OpStatus.completed, env.now, none⟩ :: rest) ∧
    (claimAlreadyClaimed e = false →
      (replaceDevice env fs rs nid oid).success = false ∧
      (replaceDevice env fs rs nid oid).message = formatErrorMessage e ∧
      (replaceDevice env fs rs nid oid).operations =
        [⟨1, step1Msg, OpStatus.completed, env.now, none⟩,
         ⟨2, step2Msg, OpStatus.failed, env.now, some e.message⟩] ∧
      RCall.putConfig ∉ (replaceDevice env fs rs nid oid).calls ∧
      RCall.remove ∉ (replaceDevice env fs rs nid oid).calls) := by
  constructor
  · intro hac
    unfold replaceDevice
    simp only [hcc, Bool.true_eq_false, if_false, h1, he, hac, if_true]
    cases h3 : env.putConfigRes with
    | error e3 => exact ⟨_, rfl⟩
    | ok u3 =>
      cases h4 : env.removeRes with
      | error e4 => exact ⟨_, rfl⟩
      | ok u4 => exact ⟨_, rfl⟩
  · intro hac
    unfold replaceDevice
    simp only [hcc, Bool.true_eq_false, if_false, h1, he, hac]
    simp

/-- Witness for C4 at a claim error without the substring. -/
theorem c4_claim_dichotomy_witness :
    (replaceDevice c4AbortEnv "AAAA-1111-BBBB" "CCCC-2222-DDDD" "N2" "OA").success = false ∧
    (replaceDevice c4AbortEnv "AAAA-1111-BBBB" "CCCC-2222-DDDD" "N2" "OA").operations =
      [⟨1, step1Msg, OpStatus.completed, "2025-01-01T00:00:00.000Z", none⟩,
       ⟨2, step2Msg, OpStatus.failed, "2025-01-01T00:00:00.000Z",
        some "Request failed with status code 400"⟩] := by
  have h := (c4_claim_error_substring_dichotomy c4AbortEnv "AAAA-1111-BBBB" "CCCC-2222-DDDD"
    "N2" "OA" wDev c4AbortErr rfl rfl rfl).2 (by decide)
  exact ⟨h.1, h.2.2.1⟩

/-- C5: once the failed device has been located in an organization, every
inventory call `validateDevices` issues targets that organization alone, and
if the replacement serial is absent from that organization's inventory the
validation fails with the replacement-not-found message naming that
organization - whatever any other organization's inventory contains. -/
theorem c5_replacement_only_in_found_org
    (orgs : List OrgEntry) (fs rs : String) (fd : FoundDevice)
    (hfind : (findFailedDevice fs orgs).1 = some fd) :
    (∀ c ∈ (validateDevices orgs fs rs).2, c.isInventory = true →
      c = ApiCall.getInventory fd.organizationId) ∧
    (∀ inv, fd.entry.inventoryRes = .ok inv →
      inv.find? (fun device => device.serial == rs) = none →
      (validateDevices orgs fs rs).1 =
        VOutcome.fail (some ("Replacement device " ++ rs ++
          " not found in organization " ++ fd.organizationName ++
          " inventory. Device must be in the same organization as the failed device."))) := by
  constructor
  · intro c hc hcinv
    obtain ⟨extra, htr, hextra⟩ := validateDevices_after_find orgs fs rs fd hfind
    rw [htr] at hc
    rcases List.mem_append.mp hc with h | h
    · exact absurd hcinv (by simp [findFailedDevice_no_inventory c h])
    · rcases List.mem_cons.mp h with rfl | h2
      · rfl
      · exact absurd hcinv (by simp [hextra c h2])
  · intro inv hinv hrepl
    unfold validateDevices
    rcases hs : findFailedDevice fs orgs with ⟨s1, s2⟩
    rw [hs] at hfind
    simp only at hfind
    subst hfind
    simp [hinv, hrepl]

/-- Witness for C5: the failed device is in Org A, the replacement serial
EEEE-3333-FFFF exists only in Org B's inventory, and validation still fails
with the replacement-not-found message naming Org A. -/
theorem c5_replacement_org_witness :
    (validateDevices [wOrgA, wOrgB] "AAAA-1111-BBBB" "EEEE-3333-FFFF").1 =
      VOutcome.fail (some ("Replacement device " ++ "EEEE-3333-FFFF" ++
        " not found in organization " ++ "Org A" ++
        " inventory. Device must be in the same organization as the failed device.")) := by
  have h := c5_replacement_only_in_found_org [wOrgA, wOrgB] "AAAA-1111-BBBB" "EEEE-3333-FFFF"
    { device := wDev, networkId := "N2", networkName := "Net Two",
      organizationId := "OA", organizationName := "Org A", entry := wOrgA } rfl
  exact h.2 [{ serial := "CCCC-2222-DDDD", model := "MR44" }] rfl rfl

/-- C6: when the failed device's notes T are non-blank, the notes written to
the replacement are exactly T followed by one appended replacement marker
(never an overwrite or truncation), the configuration payload carries
exactly that value, and running the replacement twice over the same notes
field yields T plus two appended markers. -/
theorem c6_notes_cumulative (T fs now fs₂ now₂ : String) (h : jsTrim T ≠ "") :
    buildNotes T (replacementNote fs now) = T ++ " " ++ replacementNote fs now ∧
    buildNotes (buildNotes T (replacementNote fs now)) (replacementNote fs₂ now₂) =
      T ++ " " ++ replacementNote fs now ++ " " ++ replacementNote fs₂ now₂ ∧
    (∀ (d : Device) (rs : String), d.notes = some T →
      (buildConfigData d fs rs now).notes = T ++ " " ++ replacementNote fs now) := by
  have h1 : buildNotes T (replacementNote fs now) = T ++ " " ++ replacementNote fs now := by
    unfold buildNotes
    rw [if_pos h]
  refine ⟨h1, ?_, ?_⟩
  · rw [h1]
    unfold buildNotes
    rw [if_pos (jsTrim_append_note_ne T fs now)]
  · intro d rs hd
    simp only [buildConfigData, hd]
    exact h1

/-- Witness for C6 at a concrete notes field. -/
theorem c6_notes_witness :
    buildNotes "AP closet rack 4" (replacementNote "AAAA-1111-BBBB" "2025-01-01T00:00:00.000Z") =
      "AP closet rack 4" ++ " " ++ replacementNote "AAAA-1111-BBBB" "2025-01-01T00:00:00.000Z" ∧
    buildNotes (buildNotes "AP closet rack 4"
        (replacementNote "AAAA-1111-BBBB" "2025-01-01T00:00:00.000Z"))
        (replacementNote "CCCC-2222-DDDD" "2025-02-02T00:00:00.000Z") =
      "AP closet rack 4" ++ " " ++ replacementNote "AAAA-1111-BBBB" "2025-01-01T00:00:00.000Z" ++
        " " ++ replacementNote "CCCC-2222-DDDD" "2025-02-02T00:00:00.000Z" := by
  have h := c6_notes_cumulative "AP closet rack 4" "AAAA-1111-BBBB" "2025-01-01T00:00:00.000Z"
    "CCCC-2222-DDDD" "2025-02-02T00:00:00.000Z" (by decide)
  exact ⟨h.1, h.2.1⟩

/-- C7 counterexample: a failed device whose tags field is present but empty
(`tags: []`, the common platform encoding of "no tags") has its tags omitted
from the payload, refuting "tags ... are included in the payload exactly when
present on the failed device". -/
theorem c7_counterexample_present_empty_tags_omitted :
    c7TagsDevice.tags.isSome = true ∧
    (buildConfigData c7TagsDevice "AAAA-1111-BBBB" "CCCC-2222-DDDD" "T0").tags = none := by
  constructor <;> rfl

/-- C7 (amended): the payload's hostname is the failed device's name
verbatim when that name is non-blank after trimming and the replacement
serial otherwise; tags are included exactly when present AND non-empty;
address exactly when present AND non-blank after trimming; both coordinates
exactly when both are present and truthy (non-zero); the floor-plan
identifier exactly when present and truthy (non-empty). -/
theorem c7_config_payload_conditions (d : Device) (fs rs now : String) :
    (∀ n, d.name = some n → jsTrim n ≠ "" → (buildConfigData d fs rs now).name = n) ∧
    (d.name = none → (buildConfigData d fs rs now).name = rs) ∧
    (∀ n, d.name = some n → jsTrim n = "" → (buildConfigData d fs rs now).name = rs) ∧
    ((buildConfigData d fs rs now).tags.isSome = true ↔
      ∃ ts, d.tags = some ts ∧ ts ≠ []) ∧
    (∀ ts, d.tags = some ts → ts ≠ [] → (buildConfigData d fs rs now).tags = some ts) ∧
    ((buildConfigData d fs rs now).address.isSome = true ↔
      ∃ a, d.address = some a ∧ jsTrim a ≠ "") ∧
    (∀ a, d.address = some a → jsTrim a ≠ "" → (buildConfigData d fs rs now).address = some a) ∧
    ((jsTruthyInt d.lat && jsTruthyInt d.lng) = true →
      (buildConfigData d fs rs now).lat = d.lat ∧ (buildConfigData d fs rs now).lng = d.lng) ∧
    ((jsTruthyInt d.lat && jsTruthyInt d.lng) = false →
      (buildConfigData d fs rs now).lat = none ∧ (buildConfigData d fs rs now).lng = none) ∧
    (jsTruthyStr d.floorPlanId = true →
      (buildConfigData d fs rs now).floorPlanId = d.floorPlanId) ∧
    (jsTruthyStr d.floorPlanId = false →
      (buildConfigData d fs rs now).floorPlanId = none) := by
  refine ⟨?_, ?_, ?_, ?_, ?_, ?_, ?_, ?_, ?_, ?_, ?_⟩
  · intro n hn htrim
    have hne : n ≠ "" := by
      intro h0
      exact htrim (by rw [h0]; rfl)
    simp [buildConfigData, hn, hne, htrim]
  · intro hn
    simp [buildConfigData, hn]
  · intro n hn htrim
    simp [buildConfigData, hn, htrim]
  · cases ht : d.tags with
    | none => simp [buildConfigData, ht]
    | some ts =>
      cases ts with
      | nil => simp [buildConfigData, ht]
      | cons a t => simp [buildConfigData, ht]
  · intro ts ht hne
    have : ts.length > 0 := List.length_pos.mpr hne
    simp [buildConfigData, ht, this]
  · cases ha : d.address with
    | none => simp [buildConfigData, ha]
    | some a =>
      by_cases htrim : jsTrim a = ""
      · simp [buildConfigData, ha, htrim]
      · have hne : a ≠ "" := by
          intro h0
          exact htrim (by rw [h0]; rfl)
        simp [buildConfigData, ha, hne, htrim]
  · intro a ha htrim
    have hne : a ≠ "" := by
      intro h0
      exact htrim (by rw [h0]; rfl)
    simp [buildConfigData, ha, hne, htrim]
  · intro hlat
    simp [buildConfigData, hlat]
  · intro hlat
    simp [buildConfigData, hlat]
  · intro hfp
    simp [buildConfigData, hfp]
  · intro hfp
    simp [buildConfigData, hfp]

/-- Witness for C7 at a fully-populated failed device. -/
theorem c7_config_payload_witness :
    (buildConfigData c7FullDevice "AAAA-1111-BBBB" "CCCC-2222-DDDD" "T0").name = "ap-7" ∧
    (buildConfigData c7FullDevice "AAAA-1111-BBBB" "CCCC-2222-DDDD" "T0").tags =
      some ["floor3", "west"] ∧
    (buildConfigData c7FullDevice "AAAA-1111-BBBB" "CCCC-2222-DDDD" "T0").address =
      some "500 Main St" ∧
    (buildConfigData c7FullDevice "AAAA-1111-BBBB" "CCCC-2222-DDDD" "T0").lat = some 37 ∧
    (buildConfigData c7FullDevice "AAAA-1111-BBBB" "CCCC-2222-DDDD" "T0").lng = some (-122) ∧
    (buildConfigData c7FullDevice "AAAA-1111-BBBB" "CCCC-2222-DDDD" "T0").floorPlanId =
      some "fp-9" := by
  have h := c7_config_payload_conditions c7FullDevice "AAAA-1111-BBBB" "CCCC-2222-DDDD" "T0"
  have hco := h.2.2.2.2.2.2.2.1 (by decide)
  exact ⟨h.1 "ap-7" rfl (by decide),
    h.2.2.2.2.1 ["floor3", "west"] rfl (by decide),
    h.2.2.2.2.2.2.1 "500 Main St" rfl (by decide),
    hco.1, hco.2,
    h.2.2.2.2.2.2.2.2.2.1 rfl⟩

/-- C8: when the replacement device found in inventory carries a truthy
network identifier different from the failed device's network, validation
fails with the claim-conflict message naming the conflicting network (as
resolved by the network lookup); when the identifier is absent, empty or
equal to the failed device's network the check passes and validation
succeeds. -/
theorem c8_claim_conflict_check
    (orgs : List OrgEntry) (fs rs : String) (fd : FoundDevice)
    (inv : List InvDevice) (rd : InvDevice)
    (hfind : (findFailedDevice fs orgs).1 = some fd)
    (hinv : fd.entry.inventoryRes = .ok inv)
    (hrepl : inv.find? (fun device => device.serial == rs) = some rd) :
    (hasConflict rd fd.networkId = false ↔
      rd.networkId = none ∨ rd.networkId = some "" ∨ rd.networkId = some fd.networkId) ∧
    (hasConflict rd fd.networkId = true →
      ∀ claimedNetwork, fd.entry.networkById (rd.networkId.getD "") = .ok claimedNetwork →
        (validateDevices orgs fs rs).1 =
          VOutcome.fail (some ("Replacement device is already claimed by network: " ++
            claimedNetwork.name))) ∧
    (hasConflict rd fd.networkId = false →
      (validateDevices orgs fs rs).1 =
        VOutcome.ok fd (getEnhancedDeviceInfo fd.device fd.entry.statusesRes) rd ∧
      ((validateDevices orgs fs rs).1).isOk = true) := by
  refine ⟨?_, ?_, ?_⟩
  · unfold hasConflict
    cases hn : rd.networkId with
    | none => simp
    | some nid =>
      by_cases h0 : nid = ""
      · subst h0; simp
      · by_cases heq : nid = fd.networkId
        · subst heq; simp [h0]
        · simp [h0, heq]
  · intro hconf claimedNetwork hnb
    unfold validateDevices
    rcases hs : findFailedDevice fs orgs with ⟨s1, s2⟩
    rw [hs] at hfind
    simp only at hfind
    subst hfind
    simp [hinv, hrepl, hconf, hnb]
  · intro hconf
    unfold validateDevices
    rcases hs : findFailedDevice fs orgs with ⟨s1, s2⟩
    rw [hs] at hfind
    simp only at hfind
    subst hfind
    simp [hinv, hrepl, hconf, VOutcome.isOk]

/-- Witness for C8: replacement claimed by network N9 (named "Other Net")
while the failed device sits in N2. -/
theorem c8_claim_conflict_witness :
    (validateDevices [c8Org] "AAAA-1111-BBBB" "CCCC-2222-DDDD").1 =
      VOutcome.fail (some ("Replacement device is already claimed by network: " ++
        "Other Net")) := by
  have h := c8_claim_conflict_check [c8Org] "AAAA-1111-BBBB" "CCCC-2222-DDDD"
    { device := wDev, networkId := "N2", networkName := "Net Two",
      organizationId := "OA", organizationName := "Org A", entry := c8Org }
    [c8Inv] c8Inv rfl rfl rfl
  exact h.2.1 (by decide) { id := "N9", name := "Other Net" } rfl

/-- C9 counterexample: a rate-limited (429) response that carries a platform
error-detail list is translated to that list's first entry, not to the fixed
rate-limit wording, refuting "the user-facing message is determined by the
HTTP status of the response". -/
theorem c9_counterexample_status_does_not_determine_message :
    c9Err429.response = some
      { status := 429,
        errors := some ["API budget exceeded for organization key"] } ∧
    formatErrorMessage c9Err429 ≠ some rateLimitMsg ∧
    formatErrorMessage c9Err429 = some "API budget exceeded for organization key" := by
  refine ⟨rfl, ?_, rfl⟩
  decide

/-- C9 (amended): if the failure's response carries a platform error-detail
list, its first entry (JS `undefined` when the list is empty) is returned
regardless of status; otherwise 404, 403 and 429 produce their fixed
wordings and any other failure passes through the underlying error
message. -/
theorem c9_error_message_translation (e : MErr) :
    (e.response = none → formatErrorMessage e = some e.message) ∧
    (∀ r x rest, e.response = some r → r.errors = some (x :: rest) →
      formatErrorMessage e = some x) ∧
    (∀ r, e.response = some r → r.errors = some [] → formatErrorMessage e = none) ∧
    (∀ r, e.response = some r → r.errors = none →
      (r.status = 404 → formatErrorMessage e = some notFoundMsg) ∧
      (r.status = 403 → formatErrorMessage e = some forbiddenMsg) ∧
      (r.status = 429 → formatErrorMessage e = some rateLimitMsg) ∧
      (r.status ≠ 404 → r.status ≠ 403 → r.status ≠ 429 →
        formatErrorMessage e = some e.message)) := by
  refine ⟨?_, ?_, ?_, ?_⟩
  · intro h
    simp [formatErrorMessage, h]
  · intro r x rest hr herr
    simp [formatErrorMessage, hr, herr]
  · intro r hr herr
    simp [formatErrorMessage, hr, herr]
  · intro r hr herr
    refine ⟨?_, ?_, ?_, ?_⟩
    · intro h4; simp [formatErrorMessage, hr, herr, h4]
    · intro h4
      by_cases h404 : r.status = 404
      · omega
      · simp [formatErrorMessage, hr, herr, h404, h4]
    · intro h4
      by_cases h404 : r.status = 404
      · omega
      · by_cases h403 : r.status = 403
        · omega
        · simp [formatErrorMessage, hr, herr, h404, h403, h4]
    · intro h404 h403 h429
      simp [formatErrorMessage, hr, herr, h404, h403, h429]

/-- Witness for C9 at a bare 403 response and a transport error. -/
theorem c9_translation_witness :
    formatErrorMessage { message := "boom", response := some { status := 403, errors := none } } =
      some forbiddenMsg ∧
    formatErrorMessage { message := "socket hang up", response := none } =
      some "socket hang up" := by
  have h := c9_error_message_translation
    { message := "boom", response := some { status := 403, errors := none } }
  have h2 := c9_error_message_translation { message := "socket hang up", response := none }
  exact ⟨(h.2.2.2 { status := 403, errors := none } rfl rfl).2.1 rfl, h2.1 rfl⟩

/-- C10: for every run of `replaceDevice`, the returned operations list has
consecutive step numbers starting at 1, every record except the last is
completed, the run succeeded exactly when the list ends in a completed
record, any last record is completed or failed, and the statuses pending and
in-progress never appear in a returned list. -/
theorem c10_operations_invariant (env : REnv) (fs rs nid oid : String) :
    ((replaceDevice env fs rs nid oid).operations.map OpRecord.step =
      List.range' 1 (replaceDevice env fs rs nid oid).operations.length) ∧
    (∀ op ∈ (replaceDevice env fs rs nid oid).operations.dropLast,
      op.status = OpStatus.completed) ∧
    ((replaceDevice env fs rs nid oid).success = true ↔
      ∃ last, (replaceDevice env fs rs nid oid).operations.getLast? = some last ∧
        last.status = OpStatus.completed) ∧
    (∀ last, (replaceDevice env fs rs nid oid).operations.getLast? = some last →
      last.status = OpStatus.completed ∨ last.status = OpStatus.failed) ∧
    (∀ op ∈ (replaceDevice env fs rs nid oid).operations,
      op.status ≠ OpStatus.pending ∧ op.status ≠ OpStatus.inProgress) := by
  unfold replaceDevice
  by_cases hcc : env.clientConfigured = false
  · simp [hcc, List.range']
  · simp only [hcc, if_false]
    cases h1 : env.failedDeviceRes with
    | error e => simp [List.range', List.getLast?]
    | ok d =>
      cases h2 : env.claimRes with
      | error e =>
        by_cases hac : claimAlreadyClaimed e
        · simp only [hac, if_true]
          cases h3 : env.putConfigRes with
          | error e3 => simp [List.range', List.getLast?]
          | ok u3 =>
            cases h4 : env.removeRes with
            | error e4 => simp [List.range', List.getLast?]
            | ok u4 => simp [List.range', List.getLast?]
        · simp only [hac, if_false]
          simp [List.range', List.getLast?]
      | ok u =>
        cases h3 : env.putConfigRes with
        | error e3 => simp [List.range', List.getLast?]
        | ok u3 =>
          cases h4 : env.removeRes with
          | error e4 => simp [List.range', List.getLast?]
          | ok u4 => simp [List.range', List.getLast?]

/-- Witness for C10 at a failing run. -/
theorem c10_operations_witness :
    (replaceDevice wEnvCfgFail "AAAA-1111-BBBB" "CCCC-2222-DDDD" "N2" "OA").operations.map
      OpRecord.step =
      List.range' 1 (replaceDevice wEnvCfgFail "AAAA-1111-BBBB" "CCCC-2222-DDDD" "N2"
        "OA").operations.length ∧
    ((replaceDevice wEnvCfgFail "AAAA-1111-BBBB" "CCCC-2222-DDDD" "N2" "OA").success = true ↔
      ∃ last, (replaceDevice wEnvCfgFail "AAAA-1111-BBBB" "CCCC-2222-DDDD" "N2"
        "OA").operations.getLast? = some last ∧ last.status = OpStatus.completed) := by
  have h := c10_operations_invariant wEnvCfgFail "AAAA-1111-BBBB" "CCCC-2222-DDDD" "N2" "OA"
  exact ⟨h.1, h.2.2.1⟩
